import Mathlib

/-!
Verification of the fguess format-inference engine.

The Python source (analysis.py, numeric_detection.py, datetime_detection.py,
format_spec.py, patterns.py) is shallowly embedded below.  Regular-expression
matching is modelled by a small backtracking matcher with Python `re`
semantics (leftmost match, greedy/lazy quantifiers, first-alternative
preference, `.` not matching newline, IGNORECASE where the source sets it).
The external collaborators (`strptime.detect_format` and the stdlib
`datetime.strptime` validity check) are passed in as parameters, matching the
specification's treatment of them as black boxes.  Fallible Python operations
(`int(...)`, which can raise ValueError) are modelled with `Option`/`Except`.
-/

set_option maxRecDepth 10000

instance {ε α : Type} [DecidableEq ε] [DecidableEq α] : DecidableEq (Except ε α)
  | .error a, .error b =>
    if h : a = b then isTrue (by rw [h])
    else isFalse (by intro hh; cases hh; exact h rfl)
  | .error _, .ok _ => isFalse (by intro h; cases h)
  | .ok _, .error _ => isFalse (by intro h; cases h)
  | .ok a, .ok b =>
    if h : a = b then isTrue (by rw [h])
    else isFalse (by intro hh; cases hh; exact h rfl)

/-! ## Character and string helpers mirroring the Python primitives used -/

/-- Python `\s` (ASCII range; the inputs considered contain no other whitespace). -/
def isPyWs (c : Char) : Bool :=
  c == ' ' || c == '\t' || c == '\n' || c == '\r' || c == '\x0b' || c == '\x0c'

/-- Python `\w` character, used for the `\b` word boundary. -/
def isWordChar (c : Char) : Bool := c.isAlphanum || c == '_'

/-- `[0-9a-fA-F]` -/
def isHexDigitChar (c : Char) : Bool := c.isDigit || "abcdefABCDEF".data.contains c

/-- `[a-fA-F]` -/
def isHexLetter (c : Char) : Bool := "abcdefABCDEF".data.contains c

/-- First list is a leading run of the second. -/
def isLeading : List Char → List Char → Bool
  | [], _ => true
  | _ :: _, [] => false
  | p :: ps, c :: cs => p == c && isLeading ps cs

/-- Python `str.startswith`. -/
def startsWithStr (s pre : String) : Bool := isLeading pre.data s.data

/-- Python `str.endswith`. -/
def endsWithStr (s suf : String) : Bool := isLeading suf.data.reverse s.data.reverse

/-- Python `str.removeprefix`. -/
def removePre (s pre : String) : String :=
  if startsWithStr s pre then ⟨s.data.drop pre.data.length⟩ else s

/-- Python `str.removesuffix`. -/
def removeSuf (s suf : String) : String :=
  if endsWithStr s suf then ⟨s.data.take (s.data.length - suf.data.length)⟩ else s

/-- Python `str.replace(c, "")`. -/
def removeAll (s : String) (c : Char) : String := ⟨s.data.filter (fun x => x != c)⟩

/-- Python `str.strip()` (whitespace at both ends). -/
def pyStrip (s : String) : String :=
  ⟨((s.data.dropWhile isPyWs).reverse.dropWhile isPyWs).reverse⟩

/-- Python `sub in s` substring test: `hasSub sub l` holds when `sub` occurs in `l`. -/
def hasSub (sub : List Char) : List Char → Bool
  | [] => sub.isEmpty
  | c :: rest => isLeading sub (c :: rest) || hasSub sub rest

/-- Python `int(str)`: optional surrounding whitespace, optional sign, then one
or more decimal digits; anything else raises ValueError, modelled as `none`.
(Python also accepts `_` separators between digits; the call sites below never
pass such strings.) -/
def pyInt (s : String) : Option Int :=
  let t := pyStrip s
  let core := if startsWithStr t "-" || startsWithStr t "+" then ⟨t.data.drop 1⟩ else t
  let neg := startsWithStr t "-"
  if core.data.length > 0 && core.data.all Char.isDigit then
    let n : Nat := core.data.foldl (fun acc c => acc * 10 + (c.toNat - '0'.toNat)) 0
    some (if neg then -(n : Int) else (n : Int))
  else none

/-- Python `str.isupper()`: at least one cased character and no lowercase cased
character (ASCII letters; the inputs reaching it are hex literals). -/
def pyIsUpper (s : String) : Bool :=
  s.data.any Char.isAlpha && s.data.all (fun c => !c.isAlpha || c.isUpper)

/-- Models `text[0]`; the source only consults it when the string is nonempty
(Python's `or` short-circuit), so the default is immaterial. -/
def headChar (s : String) : Char := s.data.headD 'A'

/-! ## A small backtracking regex engine with Python `re` semantics -/

/-- Regex abstract syntax.  Character classes are predicates; quantifiers are
greedy (Python preference order). -/
inductive RE where
  | eps   : RE
  | cls   : (Char → Bool) → RE
  | seq   : RE → RE → RE
  | alt   : RE → RE → RE
  | opt   : RE → RE
  | star  : RE → RE
  | wordB : RE

/-- CPS backtracking matcher.  `prev` is the previous character (for `\b`),
`k` the continuation; returning `none` from `k` forces backtracking, exactly
as in Python's engine.  Fuel is decremented on every frame; `reFuel` below is
an over-approximation of the maximal frame depth, so with that fuel the
matcher agrees with unbounded backtracking search. -/
def matR {α : Type} : Nat → RE → Option Char → List Char →
    (Option Char → List Char → Option α) → Option α
  | 0, _, _, _, _ => none
  | _ + 1, .eps, prev, s, k => k prev s
  | _ + 1, .wordB, prev, s, k =>
      let lw := match prev with | none => false | some c => isWordChar c
      let rw := match s with | [] => false | c :: _ => isWordChar c
      if lw != rw then k prev s else none
  | _ + 1, .cls p, _, s, k =>
      match s with
      | [] => none
      | c :: rest => if p c then k (some c) rest else none
  | fuel + 1, .seq a b, prev, s, k => matR fuel a prev s (fun p r => matR fuel b p r k)
  | fuel + 1, .alt a b, prev, s, k =>
      (matR fuel a prev s k).orElse (fun _ => matR fuel b prev s k)
  | fuel + 1, .opt a, prev, s, k =>
      (matR fuel a prev s k).orElse (fun _ => k prev s)
  | fuel + 1, .star a, prev, s, k =>
      (matR fuel a prev s (fun p r =>
        if r.length < s.length then matR fuel (.star a) p r k else none)).orElse
        (fun _ => k prev s)

def nodeCount : RE → Nat
  | .eps => 1
  | .cls _ => 1
  | .wordB => 1
  | .seq a b => nodeCount a + nodeCount b + 1
  | .alt a b => nodeCount a + nodeCount b + 1
  | .opt a => nodeCount a + 1
  | .star a => nodeCount a + 1

/-- Fuel bound: along any call chain each frame either descends into the
syntax tree or consumes a character on a `star` loop. -/
def reFuel (re : RE) (s : List Char) : Nat :=
  (nodeCount re + 2) * (s.length + 2) + 16

/-- Python `pattern.fullmatch(s)` viewed as a Boolean. -/
def reFullmatch (re : RE) (s : String) : Bool :=
  (matR (α := Unit) (reFuel re s.data) re none s.data
    (fun _ r => if r.isEmpty then some () else none)).isSome

/-- Python `pattern.match(s)` for a pattern of shape `^body$`: `$` also matches
just before a single trailing newline. -/
def reMatchDollar (re : RE) (s : String) : Bool :=
  (matR (α := Unit) (reFuel re s.data) re none s.data
    (fun _ r => if r.isEmpty || r == ['\n'] then some () else none)).isSome

def noNL (l : List Char) : Bool := !(l.contains '\n')

/-- Scanner for the `(.*?)(body)(.*)` fullmatch shape: the lazy group tries
start positions left to right (never across a newline, since `.` does not
match one); at each position the body is matched greedily, and the trailing
`(.*)` forces the remaining text to be newline-free, backtracking into the
body otherwise — Python's exact preference order. -/
def scanBody (fuel : Nat) (body : RE) :
    Option Char → List Char → List Char → Option (List Char × List Char × List Char)
  | prev, pre, s =>
    match matR fuel body prev s (fun _ r => if noNL r then some r else none) with
    | some r => some (pre.reverse, s.take (s.length - r.length), r)
    | none =>
      match s with
      | [] => none
      | c :: rest =>
        if c == '\n' then none else scanBody fuel body (some c) (c :: pre) rest

/-- `(.*?)(body)(.*)` fullmatch, returning the three captured groups. -/
def reSplit3 (body : RE) (s : String) : Option (String × String × String) :=
  match scanBody (reFuel body s.data) body none [] s.data with
  | some (p, m, r) => some (⟨p⟩, ⟨m⟩, ⟨r⟩)
  | none => none

/-! ### Regex constructors -/

def chrRE (c : Char) : RE := .cls (fun x => x == c)

/-- A literal character under IGNORECASE. -/
def chrCI (c : Char) : RE := .cls (fun x => x.toLower == c.toLower)

def reSeq (l : List RE) : RE := l.foldr RE.seq RE.eps

def rePlus (a : RE) : RE := .seq a (.star a)

def reUpTo : Nat → RE → RE
  | 0, _ => .eps
  | n + 1, a => .opt (.seq a (reUpTo n a))

/-- Greedy `{m,n}`. -/
def reRep (m n : Nat) (a : RE) : RE := reSeq (List.replicate m a ++ [reUpTo (n - m) a])

/-- A literal word under IGNORECASE. -/
def reWordCI (w : String) : RE := reSeq (w.data.map chrCI)

/-- Alternation with Python's left-to-right preference. -/
def reAlts (l : List RE) : RE := l.foldr RE.alt (.cls (fun _ => false))

def digitRE : RE := .cls Char.isDigit
def wsRE : RE := .cls isPyWs
def signRE : RE := .cls (fun c => c == '+' || c == '-')
def dotRE : RE := chrRE '.'

/-! ## patterns.py -/

/-- `HEX_RE = 0[xX][0-9a-fA-F]+` -/
def HEX_body : RE :=
  reSeq [chrRE '0', .cls (fun c => c == 'x' || c == 'X'), rePlus (.cls isHexDigitChar)]

/-- `UNPREFIXED_HEX_RE = [0-9]*[a-fA-F]+[0-9]*` (named BAREHEX here). -/
def BAREHEX_body : RE :=
  reSeq [.star digitRE, rePlus (.cls isHexLetter), .star digitRE]

/-- `PERCENT_RE = [+-]?\d+\.?\d*%` -/
def PERCENT_body : RE :=
  reSeq [.opt signRE, rePlus digitRE, .opt dotRE, .star digitRE, chrRE '%']

/-- `ZERO_PADDED_RE = 0+\d+\.?\d*` -/
def ZEROPAD_body : RE :=
  reSeq [rePlus (chrRE '0'), rePlus digitRE, .opt dotRE, .star digitRE]

/-- `THOUSANDS_RE = [+-]?\d{1,3}(?:,\d{3})+(?:\.\d+)?` -/
def THOUSANDS_body : RE :=
  reSeq [.opt signRE, reRep 1 3 digitRE, rePlus (reSeq [chrRE ',', reRep 3 3 digitRE]),
    .opt (reSeq [dotRE, rePlus digitRE])]

/-- `UNDERSCORE_RE = [+-]?\d{1,3}(?:_\d{3})+(?:\.\d+)?` -/
def UNDERSCORE_body : RE :=
  reSeq [.opt signRE, reRep 1 3 digitRE, rePlus (reSeq [chrRE '_', reRep 3 3 digitRE]),
    .opt (reSeq [dotRE, rePlus digitRE])]

/-- `NUMBER_RE = [+-]?\d+\.?\d*` -/
def NUMBER_body : RE :=
  reSeq [.opt signRE, rePlus digitRE, .opt dotRE, .star digitRE]

/-- `ISO_DATETIME_MICROSECOND_RE = ^\d{4}-\d{2}-\d{2}T\d{2}:\d{2}:\d{2}\.\d+$` -/
def ISO_MICRO_body : RE :=
  reSeq [reRep 4 4 digitRE, chrRE '-', reRep 2 2 digitRE, chrRE '-', reRep 2 2 digitRE,
    chrRE 'T', reRep 2 2 digitRE, chrRE ':', reRep 2 2 digitRE, chrRE ':', reRep 2 2 digitRE,
    dotRE, rePlus digitRE]

/-- `FULL_HEX_RE = (.*?)(HEX)(.*)` -/
def FULL_HEX_match (s : String) : Option (String × String × String) := reSplit3 HEX_body s

/-- `FULL_PERCENT_RE = (.*?)(PERCENT)(.*)` -/
def FULL_PERCENT_match (s : String) : Option (String × String × String) :=
  reSplit3 PERCENT_body s

/-- `FULL_UNPREFIXED_HEX_RE = ()([0-9]*[a-fA-F]+[0-9]*)()`: the outer groups are
empty, so it only fullmatches when the whole string is the bare-hex shape and
the captured groups around it are always empty. -/
def FULL_BAREHEX_match (s : String) : Option (String × String × String) :=
  if reFullmatch BAREHEX_body s then some ("", s, "") else none

/-- `FULL_THOUSANDS_RE = (.*?)(THOUSANDS)(.*)` -/
def FULL_THOUSANDS_match (s : String) : Option (String × String × String) :=
  reSplit3 THOUSANDS_body s

/-- `FULL_UNDERSCORE_RE = (.*?)(UNDERSCORE)(.*)` -/
def FULL_UNDERSCORE_match (s : String) : Option (String × String × String) :=
  reSplit3 UNDERSCORE_body s

/-- `FULL_NUMBER_RE = (.*?)(NUMBER)(.*)` -/
def FULL_NUMBER_match (s : String) : Option (String × String × String) :=
  reSplit3 NUMBER_body s

/-- `PAD_CHARS = " _*"` -/
def PAD_CHARS : List Char := [' ', '_', '*']

/-! ## format_spec.py -/

/-- The `FormatSpec` dataclass.  The `test_value` field (a Python number used
only for illustrative display and never read by `build`/`as_tuple`) is not
carried; the `int()`/`float()` conversions that compute it are modelled at the
points where they can raise. -/
structure FormatSpec where
  align : String := ""
  fill : String := ""
  width : Nat := 0
  comma : Bool := false
  underscore : Bool := false
  decimals : Option Nat := none
  type_char : String := ""
  sign : String := ""
  pfx : String := ""
  sfx : String := ""
  value_type : String := "str"
  datetime_format : String := ""
  deriving DecidableEq, Repr

/-- `build_format_spec` (positional arguments, in the source's keyword order). -/
def build_format_spec (align fill : String) (width : Nat) (comma underscore : Bool)
    (decimals : Option Nat) (type_char sign pfx sfx : String) : String :=
  let fill := if fill ≠ " " then fill else ""
  let width_str := if width ≠ 0 then toString width else ""
  let comma_str := if comma then "," else ""
  let underscore_str := if underscore then "_" else ""
  let decimals_str := match decimals with | some d => "." ++ toString d | none => ""
  let separator_str := if underscore_str ≠ "" then underscore_str else comma_str
  let type_char := if type_char = "d" ∧ (comma ∨ underscore) ∧ width = 0 then "" else type_char
  let spec :=
    if align ≠ "" then fill ++ align ++ sign ++ width_str ++ separator_str ++ decimals_str ++ type_char
    else sign ++ fill ++ width_str ++ separator_str ++ decimals_str ++ type_char
  if spec ≠ "" then "f\"" ++ pfx ++ "\x7bvariable:" ++ spec ++ "\x7d" ++ sfx ++ "\""
  else "f\"" ++ pfx ++ "\x7bvariable\x7d" ++ sfx ++ "\""

/-- `FormatSpec.build`. -/
def FormatSpec.build (fs : FormatSpec) : String :=
  if fs.value_type = "datetime" then
    "f\"" ++ fs.pfx ++ "\x7bvariable:" ++ fs.datetime_format ++ "\x7d" ++ fs.sfx ++ "\""
  else
    build_format_spec fs.align fs.fill fs.width fs.comma fs.underscore fs.decimals
      fs.type_char fs.sign fs.pfx fs.sfx

/-- `FormatSpec.as_tuple`. -/
def FormatSpec.as_tuple (fs : FormatSpec) : String × String := (fs.value_type, fs.build)

/-! ## numeric_detection.py -/

/-- `NumberParts` (its `prefix`/`suffix` fields are named `pfx`/`sfx` here). -/
structure NumberParts where
  pfx : String
  num : String
  sfx : String
  deriving DecidableEq, Repr

/-- `is_padding`: nonempty, all characters equal, and drawn from `PAD_CHARS`. -/
def is_padding (text : String) : Bool :=
  match text.data with
  | [] => false
  | c :: rest => rest.all (fun x => x == c) && PAD_CHARS.contains c

/-- `count_decimals`: Python `len(s.split(".")[1]) if "." in s else 0`, i.e. the
number of characters after the first `.` and before any second `.`. -/
def count_decimals (s : String) : Nat :=
  if s.data.contains '.' then
    (((s.data.dropWhile (fun c => c != '.')).drop 1).takeWhile (fun c => c != '.')).length
  else 0

/-- Loop body of `split_numeric_literals` over
`[FULL_THOUSANDS_RE, FULL_UNDERSCORE_RE, FULL_NUMBER_RE]`. -/
def snlLoop (s : String) : List (String → Option (String × String × String)) → NumberParts
  | [] => ⟨"", s, ""⟩
  | m :: rest =>
    match m s with
    | some (p, n, suf) =>
      let left_pad := is_padding p
      let right_pad := is_padding suf
      if (left_pad ∨ right_pad) ∧ (left_pad ≠ right_pad ∨ headChar p = headChar suf) then
        ⟨"", s, ""⟩
      else ⟨p, n, suf⟩
    | none => snlLoop s rest

/-- `split_numeric_literals`. -/
def split_numeric_literals (s : String) : NumberParts :=
  match FULL_HEX_match s with
  | some (p, n, suf) => ⟨p, n, suf⟩
  | none =>
    match FULL_PERCENT_match s with
    | some (p, n, suf) =>
      let left_pad := is_padding p
      let right_pad := is_padding suf
      if (left_pad ∨ right_pad) ∧ (left_pad ≠ right_pad ∨ headChar p = headChar suf) then
        ⟨"", s, ""⟩
      else ⟨p, n, suf⟩
    | none =>
      match FULL_BAREHEX_match s with
      | some (p, n, suf) =>
        let left_pad := is_padding p
        let right_pad := is_padding suf
        if ¬ ((left_pad ∧ ¬ right_pad) ∨ (right_pad ∧ ¬ left_pad)) then ⟨p, n, suf⟩
        else snlLoop s [FULL_THOUSANDS_match, FULL_UNDERSCORE_match, FULL_NUMBER_match]
      | none => snlLoop s [FULL_THOUSANDS_match, FULL_UNDERSCORE_match, FULL_NUMBER_match]

/-- Loop of `detect_padding` over `PAD_CHARS`. -/
def detectPadGo (s : String) : List Char → String × String × String × String
  | [] => (s, "", "", " ")
  | c :: restChars =>
    let leftLen := (s.data.takeWhile (fun x => x == c)).length
    let rightLen := (s.data.reverse.takeWhile (fun x => x == c)).length
    let rightIdx := s.data.length - rightLen
    let left_pad : String := ⟨s.data.take leftLen⟩
    let core : String := ⟨(s.data.drop leftLen).take (rightIdx - leftLen)⟩
    let right_pad : String := ⟨s.data.drop rightIdx⟩
    if (left_pad ≠ "" ∨ right_pad ≠ "") ∧ core ≠ "" then
      (core, left_pad, right_pad, String.singleton c)
    else detectPadGo s restChars

/-- `detect_padding`, returning `(core, left_pad, right_pad, pad_char)`. -/
def detect_padding (s : String) : String × String × String × String := detectPadGo s PAD_CHARS

/-- `parse_number_to_spec` (keyword arguments made positional: prefix, suffix,
align, fill, width).  A Python `ValueError` escaping the function is modelled
as `Except.error`. -/
def parse_number_to_spec (s pfx sfx align fill : String) (width : Nat) :
    Except String (List FormatSpec) :=
  if reFullmatch HEX_body s then
    let is_padded := startsWithStr s "0x0"
    .ok [{ fill := if is_padded then "0" else "", width := if is_padded then s.data.length else 0,
           type_char := "x", sign := "#", pfx := pfx, sfx := sfx, value_type := "int" }]
  else if reFullmatch BAREHEX_body s then
    let hex_char := if pyIsUpper s then "X" else "x"
    let is_padded := s.data.length > 1 && startsWithStr s "0"
    .ok [{ fill := if is_padded then "0" else "", width := if is_padded then s.data.length else 0,
           type_char := hex_char, pfx := pfx, sfx := sfx, value_type := "int" }]
  else if reFullmatch PERCENT_body s then
    let num := removeSuf s "%"
    let decimals := count_decimals num
    let has_sign := startsWithStr num "+"
    .ok [{ align := align, fill := fill, width := width, sign := if has_sign then "+" else "",
           decimals := some decimals, type_char := "%", pfx := pfx, sfx := sfx,
           value_type := "float" }]
  else if reFullmatch ZEROPAD_body (removePre s "+") then
    let width_val := s.data.length
    let decimals := count_decimals s
    let has_sign := startsWithStr s "+"
    -- value = float(s) if decimals else int(s): int() raises ValueError when the
    -- literal ends in a bare decimal point (e.g. "00.")
    if decimals = 0 ∧ pyInt s = none then
      .error "ValueError: invalid literal for int() with base 10"
    else
      .ok ((if decimals = 0 then
              [{ fill := "0", width := width_val, type_char := "d",
                 sign := if has_sign then "+" else "", pfx := pfx, sfx := sfx,
                 value_type := "int" : FormatSpec }]
            else []) ++
           [{ fill := "0", width := width_val, decimals := some decimals, type_char := "f",
              sign := if has_sign then "+" else "", pfx := pfx, sfx := sfx,
              value_type := "float" }])
  else
    let clean := removeAll (removeAll s ',') '_'
    if reFullmatch NUMBER_body clean then
      let has_comma := reFullmatch THOUSANDS_body s
      let has_underscore := reFullmatch UNDERSCORE_body s
      let decimals := count_decimals clean
      let has_sign := startsWithStr s "+"
      let sign := if has_sign then "+" else ""
      -- the int()/float() conversions computing test_value cannot raise here: a
      -- trailing decimal point is stripped before int() in this branch
      let results : List FormatSpec :=
        if decimals = 0 ∧ (align ≠ "" ∨ has_comma ∨ has_underscore ∨ sign ≠ ""
            ∨ pyStrip fill ≠ "") then
          [{ align := align, fill := fill, width := width, comma := has_comma,
             underscore := has_underscore, type_char := "d", sign := sign,
             pfx := pfx, sfx := sfx, value_type := "int" }]
        else []
      let float_spec : FormatSpec :=
        { align := align, fill := fill, width := width, comma := has_comma,
          underscore := has_underscore, decimals := some decimals, type_char := "f",
          sign := sign, pfx := pfx, sfx := sfx, value_type := "float" }
      .ok (if decimals = 0 ∧ (has_comma ∨ has_underscore) then float_spec :: results
           else results ++ [float_spec])
    else .ok []

/-! ## datetime_detection.py

The external collaborator `strptime.detect_format` is a parameter
`detectFormat : String → Option String` (`none` models its ValueError /
no-recognition signal), and the stdlib `datetime.strptime` validity check is a
parameter `strptimeOk : String → String → Bool`. -/

def ISO_MICRO_FMT : String := "%Y-%m-%dT%H:%M:%S.%f"

/-- `detect_datetime_format`. -/
def detect_datetime_format (detectFormat : String → Option String)
    (strptimeOk : String → String → Bool) (text : String) : Option String :=
  let detected := detectFormat text
  if (detected.isNone || !(hasSub "%f".data (detected.getD "").data))
      && reMatchDollar ISO_MICRO_body text then
    if strptimeOk text ISO_MICRO_FMT then some ISO_MICRO_FMT else detected
  else detected

/-- `is_single_numeric_datetime_format`. -/
def is_single_numeric_datetime_format (f : String) : Bool :=
  ["%d", "%m", "%y", "%Y", "%H", "%I", "%M", "%S", "%j"].contains f

/-- `has_datetime_structure`. -/
def has_datetime_structure (text : String) : Bool :=
  [' ', '-', '/', ':', 'T', '+'].any (fun c => text.data.contains c)

/-- The six literal-embedding datetime patterns of `split_datetime_literals`
(each compiled with `re.IGNORECASE`), in source order. -/
def DT_apCI : RE := .cls (fun c => c == 'A' || c == 'a' || c == 'P' || c == 'p')

/-- `[a-z]` under IGNORECASE. -/
def DT_letterCI : RE := .cls Char.isAlpha

/-- `\d{4}-\d{2}-\d{2}(?:\s+\d{1,2}:\d{2}(?::\d{2})?)?(?:\s*[AP]M)?` -/
def DT1_body : RE :=
  reSeq [reRep 4 4 digitRE, chrRE '-', reRep 2 2 digitRE, chrRE '-', reRep 2 2 digitRE,
    .opt (reSeq [rePlus wsRE, reRep 1 2 digitRE, chrRE ':', reRep 2 2 digitRE,
      .opt (reSeq [chrRE ':', reRep 2 2 digitRE])]),
    .opt (reSeq [.star wsRE, DT_apCI, chrCI 'm'])]

/-- `\d{1,2}/\d{1,2}/\d{2,4}(?:\s+\d{1,2}:\d{2}(?::\d{2})?\s*[AP]M?)?` -/
def DT2_body : RE :=
  reSeq [reRep 1 2 digitRE, chrRE '/', reRep 1 2 digitRE, chrRE '/', reRep 2 4 digitRE,
    .opt (reSeq [rePlus wsRE, reRep 1 2 digitRE, chrRE ':', reRep 2 2 digitRE,
      .opt (reSeq [chrRE ':', reRep 2 2 digitRE]), .star wsRE, DT_apCI, .opt (chrCI 'm')])]

/-- `\d{1,2}:\d{2}(?::\d{2})?(?:\s*[AP]M)?` -/
def DT3_body : RE :=
  reSeq [reRep 1 2 digitRE, chrRE ':', reRep 2 2 digitRE,
    .opt (reSeq [chrRE ':', reRep 2 2 digitRE]),
    .opt (reSeq [.star wsRE, DT_apCI, chrCI 'm'])]

def monthAbbrRE : RE :=
  reAlts (["Jan", "Feb", "Mar", "Apr", "May", "Jun", "Jul", "Aug", "Sep", "Oct", "Nov",
    "Dec"].map reWordCI)

def dayAbbrRE : RE :=
  reAlts (["Mon", "Tue", "Wed", "Thu", "Fri", "Sat", "Sun"].map reWordCI)

/-- `\b(?:Jan|...|Dec)[a-z]*\s+\d{1,2}(?:,?\s+\d{4})?(?:\s+\d{1,2}:\d{2}(?::\d{2})?)?(?:\s*[AP]M)?` -/
def DT4_body : RE :=
  reSeq [.wordB, monthAbbrRE, .star DT_letterCI, rePlus wsRE, reRep 1 2 digitRE,
    .opt (reSeq [.opt (chrRE ','), rePlus wsRE, reRep 4 4 digitRE]),
    .opt (reSeq [rePlus wsRE, reRep 1 2 digitRE, chrRE ':', reRep 2 2 digitRE,
      .opt (reSeq [chrRE ':', reRep 2 2 digitRE])]),
    .opt (reSeq [.star wsRE, DT_apCI, chrCI 'm'])]

/-- `\b(?:Mon|...|Sun)[a-z]*\s+(?:Jan|...|Dec)[a-z]*\s+\d{1,2}(?:\s+\d{4})?(?:\s+\d{1,2}:\d{2}(?::\d{2})?)?(?:\s*[AP]M)?` -/
def DT5_body : RE :=
  reSeq [.wordB, dayAbbrRE, .star DT_letterCI, rePlus wsRE, monthAbbrRE, .star DT_letterCI,
    rePlus wsRE, reRep 1 2 digitRE,
    .opt (reSeq [rePlus wsRE, reRep 4 4 digitRE]),
    .opt (reSeq [rePlus wsRE, reRep 1 2 digitRE, chrRE ':', reRep 2 2 digitRE,
      .opt (reSeq [chrRE ':', reRep 2 2 digitRE])]),
    .opt (reSeq [.star wsRE, DT_apCI, chrCI 'm'])]

/-- `\b(?:January|...|December|Monday|...|Sunday|Jan|...|Dec|Mon|...|Sun)\b` -/
def DT6_body : RE :=
  reSeq [.wordB,
    reAlts (["January", "February", "March", "April", "May", "June", "July", "August",
      "September", "October", "November", "December", "Monday", "Tuesday", "Wednesday",
      "Thursday", "Friday", "Saturday", "Sunday", "Jan", "Feb", "Mar", "Apr", "May", "Jun",
      "Jul", "Aug", "Sep", "Oct", "Nov", "Dec", "Mon", "Tue", "Wed", "Thu", "Fri", "Sat",
      "Sun"].map reWordCI),
    .wordB]

def datetimePatterns : List RE := [DT1_body, DT2_body, DT3_body, DT4_body, DT5_body, DT6_body]

/-- Loop of `split_datetime_literals` over the six patterns: a pattern that
fullmatches but whose (stripped) inner span is not recognized falls through to
the next pattern. -/
def sdlGo (detectFormat : String → Option String) (strptimeOk : String → String → Bool)
    (text : String) : List RE → Option String × String × Option String × Option String
  | [] => (none, text, none, none)
  | p :: rest =>
    match reSplit3 p text with
    | some (pre, mid, suf) =>
      let mid' := pyStrip mid
      match detect_datetime_format detectFormat strptimeOk mid' with
      | some f => (some pre, mid', some suf, some f)
      | none => sdlGo detectFormat strptimeOk text rest
    | none => sdlGo detectFormat strptimeOk text rest

/-- `split_datetime_literals`, returning `(prefix, datetime_part, suffix, format)`. -/
def split_datetime_literals (detectFormat : String → Option String)
    (strptimeOk : String → String → Bool) (text : String) :
    Option String × String × Option String × Option String :=
  sdlGo detectFormat strptimeOk text datetimePatterns

/-! ## analysis.py -/

/-- `_as_string_spec`. -/
def as_string_spec (pfx sfx align fill : String) (width : Nat) : FormatSpec :=
  { align := align, fill := fill, width := width, pfx := pfx, sfx := sfx,
    value_type := "str" }

/-- The datetime half of `analyze_number_format` (analysis.py lines 41-51):
direct detection on the full sample, else literal-embedded detection with the
captured prefix/suffix (`prefix or ""`, `suffix or ""`).  Returns
`(datetime_prefix, datetime_suffix, datetime_format)`.  The subsequent
`datetime.strptime(datetime_part, datetime_format)` call in the source sits in
a `try`/`except ValueError: pass` and its result is discarded, so it has no
observable effect and is not modelled. -/
def datetimeDetectionPass (detectFormat : String → Option String)
    (strptimeOk : String → String → Bool) (sample : String) :
    String × String × Option String :=
  match detect_datetime_format detectFormat strptimeOk sample with
  | some f => ("", "", some f)
  | none =>
    match split_datetime_literals detectFormat strptimeOk sample with
    | (p, _, suf, some f) => (p.getD "", suf.getD "", some f)
    | (_, _, _, none) => ("", "", none)

/-- The numeric half of `analyze_number_format` (analysis.py lines 72-103).
`.inl` is the early `return` of line 86 (both-sided padding of unequal
lengths); `.inr` carries the `numeric_results` that reach the merge step. -/
def numericResults (sample : String) :
    Except String (List (String × String) ⊕ List (String × String)) :=
  let parts := split_numeric_literals sample
  if parts.pfx ≠ "" ∨ parts.sfx ≠ "" then
    match parse_number_to_spec parts.num parts.pfx parts.sfx "" "" 0 with
    | .error e => .error e
    | .ok specs =>
      .ok (.inr ((specs ++ [as_string_spec parts.pfx parts.sfx "" "" 0]).map
        FormatSpec.as_tuple))
  else
    match detect_padding sample with
    | (core, left_pad, right_pad, fill_char) =>
      if left_pad ≠ "" ∧ right_pad ≠ "" ∧ left_pad.data.length ≠ right_pad.data.length then
        .ok (.inl [(as_string_spec left_pad right_pad "" "" 0).as_tuple])
      else
        let align := if left_pad ≠ "" ∧ right_pad ≠ "" then "^"
                     else if left_pad ≠ "" then ">"
                     else if right_pad ≠ "" then "<"
                     else ""
        let width := if left_pad ≠ "" ∨ right_pad ≠ "" then sample.data.length else 0
        match parse_number_to_spec core "" "" align fill_char width with
        | .error e => .error e
        | .ok specs =>
          let specs :=
            if (left_pad ≠ "" ∨ right_pad ≠ "") ∧ (align ≠ "" ∨ fill_char ≠ " ") then
              specs ++ [as_string_spec "" "" align fill_char width]
            else specs
          .ok (.inr (specs.map FormatSpec.as_tuple))

/-- `analyze_number_format`.  A ValueError escaping it is `Except.error`. -/
def analyze_number_format (detectFormat : String → Option String)
    (strptimeOk : String → String → Bool) (sample : String) :
    Except String (List (String × String)) :=
  match datetimeDetectionPass detectFormat strptimeOk sample with
  | (dtPre, dtSuf, dtFmt) =>
    let datetime_results : List (String × String) :=
      match dtFmt with
      | some f =>
        [(FormatSpec.as_tuple
          { value_type := "datetime", datetime_format := f, pfx := dtPre, sfx := dtSuf })]
      | none => []
    let is_single : Bool := match dtFmt with
      | some f => is_single_numeric_datetime_format f
      | none => false
    match numericResults sample with
    | .error e => .error e
    | .ok (.inl res) => .ok res
    | .ok (.inr numeric_results) =>
      .ok (if datetime_results ≠ [] ∧ ¬ is_single then
             if has_datetime_structure sample then datetime_results ++ numeric_results
             else numeric_results ++ datetime_results
           else if datetime_results ≠ [] ∧ is_single then
             numeric_results ++ datetime_results
           else numeric_results)

/-! ## Theorems -/

/-- C1: the claim states that `analyze_number_format` terminates and returns a
candidate list for every input without raising, under the assumed collaborator
contract.  The code violates this: on the sample `"00."` (collaborator
signalling failure, as it may) the zero-padded branch of
`parse_number_to_spec` evaluates `int("00.")`, which raises ValueError, and
the exception escapes `analyze_number_format`. -/
theorem analyze_number_format_raises_on_trailing_dot :
    analyze_number_format (fun _ => none) (fun _ _ => false) "00." =
      .error "ValueError: invalid literal for int() with base 10" := by decide

/-- C3: the claim states that a zero-padded core with a decimal point yields
exactly one float candidate (precision = digits after the point).  The code
violates this on the core `"00."` — it matches the zero-padded shape, its
decimal count is 0, and the branch evaluates `int("00.")`, raising ValueError
instead of returning the float candidate. -/
theorem parse_number_to_spec_raises_on_trailing_dot_core :
    reFullmatch ZEROPAD_body "00." = true ∧
    parse_number_to_spec "00." "" "" "" "" 0 =
      .error "ValueError: invalid literal for int() with base 10" := by
  exact ⟨by decide, by decide⟩

/-- Modelled from the C9 claim as stated: the present fields joined in the one
fixed order fill, align, sign, width, grouping marker, precision marker, type
indicator, with the fill omitted when it equals the default space and the
decimal-int type indicator suppressed when grouping is set and width is 0. -/
def claimed_field_order_inner (align fill : String) (width : Nat) (comma underscore : Bool)
    (decimals : Option Nat) (type_char sign : String) : String :=
  let shownFill := if fill = " " then "" else fill
  let shownWidth := if width = 0 then "" else toString width
  let grouping := if underscore then "_" else if comma then "," else ""
  let precision := match decimals with | some d => "." ++ toString d | none => ""
  let shownType := if type_char = "d" ∧ grouping ≠ "" ∧ width = 0 then "" else type_char
  shownFill ++ align ++ sign ++ shownWidth ++ grouping ++ precision ++ shownType

/-- C9 counterexample: with no alignment, an explicit sign and a zero fill the
code renders the sign before the fill (`+04d`), not fill before sign (`0+4d`)
as the claimed single field order would have it. -/
theorem field_order_claim_fails_without_align :
    build_format_spec "" "0" 4 false false none "d" "+" "" "" =
      "f\"\x7bvariable:+04d\x7d\"" ∧
    claimed_field_order_inner "" "0" 4 false false none "d" "+" = "0+4d" ∧
    build_format_spec "" "0" 4 false false none "d" "+" "" "" ≠
      "f\"\x7bvariable:" ++ claimed_field_order_inner "" "0" 4 false false none "d" "+"
        ++ "\x7d\"" := by
  exact ⟨by decide, by decide, by decide⟩

/-- Modelled from the C9 claim as amended: when an alignment is present the
inner specification is fill, align, sign, width, grouping marker, precision
marker, type indicator; when the alignment is absent the sign precedes the
fill; the fill is omitted when it equals the default space; the decimal-int
type indicator is suppressed when grouping is set and width is 0. -/
def render_inner_amended (align fill : String) (width : Nat) (comma underscore : Bool)
    (decimals : Option Nat) (type_char sign : String) : String :=
  let shownFill := if fill = " " then "" else fill
  let shownWidth := if width = 0 then "" else toString width
  let grouping := if underscore then "_" else if comma then "," else ""
  let precision := match decimals with | some d => "." ++ toString d | none => ""
  let shownType := if type_char = "d" ∧ grouping ≠ "" ∧ width = 0 then "" else type_char
  if align ≠ "" then
    shownFill ++ align ++ sign ++ shownWidth ++ grouping ++ precision ++ shownType
  else
    sign ++ shownFill ++ shownWidth ++ grouping ++ precision ++ shownType

/-- C9 (amended): every non-datetime `FormatSpec` renders as the bare
placeholder wrapped in its literal prefix/suffix when the inner specification
is empty, and otherwise wraps the inner specification assembled by the amended
field order (fill before align before sign when aligned, sign first when not
aligned, grouping then precision then type indicator, with the space-fill
omission and the decimal-int suppression rules). -/
theorem render_field_order (fs : FormatSpec) (h : fs.value_type ≠ "datetime") :
    fs.build =
      (let inner := render_inner_amended fs.align fs.fill fs.width fs.comma fs.underscore
        fs.decimals fs.type_char fs.sign
       if inner ≠ "" then
         "f\"" ++ fs.pfx ++ "\x7bvariable:" ++ inner ++ "\x7d" ++ fs.sfx ++ "\""
       else "f\"" ++ fs.pfx ++ "\x7bvariable\x7d" ++ fs.sfx ++ "\"") := by
  rcases fs with ⟨align, fill, width, comma, underscore, decimals, type_char, sign, pfx, sfx, vt, dtf⟩
  simp only [FormatSpec.build, build_format_spec, render_inner_amended] at h ⊢
  rw [if_neg h]
  by_cases hu : underscore <;> by_cases hc : comma <;>
    simp [hu, hc]

/-- C9 witness: a concrete aligned integer spec rendered through the amended
field-order statement. -/
theorem render_field_order_witness :
    ({ align := "^", fill := "*", width := 7, type_char := "d",
       value_type := "int" } : FormatSpec).build = "f\"\x7bvariable:*^7d\x7d\"" :=
  render_field_order
    { align := "^", fill := "*", width := 7, type_char := "d", value_type := "int" }
    (by decide)

/-- C4 counterexample: on `"**12abc"` the plain-decimal pattern captures
`("**", "12", "abc")`; the suffix is not a pad run, so the claimed condition
(reject only when prefix and suffix are BOTH pad runs) says the captured
triple is returned — but the code rejects the split whenever padding is
detected on one side only, and returns the string unsplit. -/
theorem split_rejects_one_sided_pad_run :
    FULL_HEX_match "**12abc" = none ∧
    FULL_PERCENT_match "**12abc" = none ∧
    FULL_BAREHEX_match "**12abc" = none ∧
    FULL_THOUSANDS_match "**12abc" = none ∧
    FULL_UNDERSCORE_match "**12abc" = none ∧
    FULL_NUMBER_match "**12abc" = some ("**", "12", "abc") ∧
    is_padding "**" = true ∧
    is_padding "abc" = false ∧
    split_numeric_literals "**12abc" = ⟨"", "**12abc", ""⟩ := by
  exact ⟨by decide, by decide, by decide, by decide, by decide, by decide, by decide,
    by decide, by decide⟩

/-- C4 (amended): for a sample captured as `(prefix, core, suffix)` by the
percentage, thousands-grouped, underscore-grouped or plain-decimal stage (the
earlier stages not matching), the split is rejected — the whole string is
returned unsplit — exactly when at least one of the captured prefix/suffix is
a uniform pad run and either exactly one side is such a run, or both sides are
and they begin with the same character (regardless of length); otherwise the
captured triple is returned. -/
theorem split_pad_ambiguity_rule (s p n suf : String)
    (h :
      (FULL_HEX_match s = none ∧ FULL_PERCENT_match s = some (p, n, suf)) ∨
      (FULL_HEX_match s = none ∧ FULL_PERCENT_match s = none ∧
        FULL_BAREHEX_match s = none ∧ FULL_THOUSANDS_match s = some (p, n, suf)) ∨
      (FULL_HEX_match s = none ∧ FULL_PERCENT_match s = none ∧
        FULL_BAREHEX_match s = none ∧ FULL_THOUSANDS_match s = none ∧
        FULL_UNDERSCORE_match s = some (p, n, suf)) ∨
      (FULL_HEX_match s = none ∧ FULL_PERCENT_match s = none ∧
        FULL_BAREHEX_match s = none ∧ FULL_THOUSANDS_match s = none ∧
        FULL_UNDERSCORE_match s = none ∧ FULL_NUMBER_match s = some (p, n, suf))) :
    split_numeric_literals s =
      if (is_padding p ∨ is_padding suf) ∧
          (is_padding p ≠ is_padding suf ∨ headChar p = headChar suf) then
        (⟨"", s, ""⟩ : NumberParts)
      else ⟨p, n, suf⟩ := by
  rcases h with ⟨h1, h2⟩ | ⟨h1, h2, h3, h4⟩ | ⟨h1, h2, h3, h4, h5⟩ |
    ⟨h1, h2, h3, h4, h5, h6⟩
  · simp only [split_numeric_literals, h1, h2]
  · simp only [split_numeric_literals, snlLoop, h1, h2, h3, h4]
  · simp only [split_numeric_literals, snlLoop, h1, h2, h3, h4, h5]
  · simp only [split_numeric_literals, snlLoop, h1, h2, h3, h4, h5, h6]

/-- C4 witness: symmetric same-character pad runs of unequal length around a
percentage are rejected as ambiguous and the string is returned unsplit. -/
theorem split_pad_ambiguity_rule_witness :
    split_numeric_literals "**50%*" = ⟨"", "**50%*", ""⟩ := by
  have h := split_pad_ambiguity_rule "**50%*" "**" "50%" "*"
    (Or.inl ⟨by decide, by decide⟩)
  exact h

/-- C5 counterexample: the claim states the unprefixed-hex stage matches as an
"anything, then the shape, then anything" pattern, finding a hex run embedded
in literal text.  In the code `FULL_UNPREFIXED_HEX_RE` is `()(shape)()` with
empty outer groups: on `"val=1A"` it does not match at all, and the sample
falls through to the plain-decimal stage, which splits `("val=", "1", "A")`
rather than the claimed `("val=", "1A", "")`. -/
theorem embedded_bare_hex_not_split_out :
    FULL_BAREHEX_match "val=1A" = none ∧
    split_numeric_literals "val=1A" = ⟨"val=", "1", "A"⟩ ∧
    split_numeric_literals "val=1A" ≠ ⟨"val=", "1A", ""⟩ := by
  exact ⟨by decide, by decide, by decide⟩

/-- C5 (amended): the unprefixed-hex stage is tried after prefixed-hex and
percentage and before the thousands/underscore/plain-decimal stages, but it
anchors the whole sample: when it matches, the captured prefix and suffix are
empty and the core is the entire sample, the one-sided-padding rejection check
is vacuous, and the match is always accepted. -/
theorem bare_hex_stage_whole_string_only (s p n suf : String)
    (h1 : FULL_HEX_match s = none) (h2 : FULL_PERCENT_match s = none)
    (h3 : FULL_BAREHEX_match s = some (p, n, suf)) :
    p = "" ∧ suf = "" ∧ n = s ∧ split_numeric_literals s = ⟨"", s, ""⟩ := by
  have hps : p = "" ∧ n = s ∧ suf = "" := by
    unfold FULL_BAREHEX_match at h3
    by_cases hb : reFullmatch BAREHEX_body s = true
    · rw [if_pos hb] at h3
      have := Option.some.inj h3
      exact ⟨congrArg Prod.fst this.symm,
        congrArg (fun t => t.snd.fst) this.symm,
        congrArg (fun t => t.snd.snd) this.symm⟩
    · rw [if_neg hb] at h3
      cases h3
  obtain ⟨hp, hn, hsu⟩ := hps
  subst hp; subst hn; subst hsu
  refine ⟨rfl, rfl, rfl, ?_⟩
  unfold split_numeric_literals
  rw [h1, h2, h3]
  exact if_pos (by decide)

/-- C5 witness: the whole-string hex sample `"1A"`. -/
theorem bare_hex_stage_whole_string_only_witness :
    ("" : String) = "" ∧ ("" : String) = "" ∧ ("1A" : String) = "1A" ∧
    split_numeric_literals "1A" = ⟨"", "1A", ""⟩ :=
  bare_hex_stage_whole_string_only "1A" "" "1A" "" (by decide) (by decide) (by decide)

/-- C10: whenever `split_numeric_literals` leaves the sample unsplit and
`detect_padding` finds nonempty pad runs on both sides with unequal lengths,
`analyze_number_format` returns exactly one candidate — the string-kind spec
wrapping the placeholder in the two pad runs — discarding the datetime
candidate (whatever the collaborator detected) and all numeric candidates. -/
theorem padding_early_return_single_string_candidate
    (detectFormat : String → Option String) (strptimeOk : String → String → Bool)
    (s core lp rp c : String)
    (hsplit : split_numeric_literals s = ⟨"", s, ""⟩)
    (hpad : detect_padding s = (core, lp, rp, c))
    (hl : lp ≠ "") (hr : rp ≠ "") (hlen : lp.data.length ≠ rp.data.length) :
    analyze_number_format detectFormat strptimeOk s =
      .ok [(as_string_spec lp rp "" "" 0).as_tuple] := by
  have hnum : numericResults s = .ok (.inl [(as_string_spec lp rp "" "" 0).as_tuple]) := by
    unfold numericResults
    rw [hsplit]
    rw [if_neg (by simp)]
    rw [hpad]
    exact if_pos ⟨hl, hr, hlen⟩
  rcases hdd : datetimeDetectionPass detectFormat strptimeOk s with ⟨dtPre, dtSuf, dtFmt⟩
  simp only [analyze_number_format, hdd, hnum]

/-- C10 witness: `"*5**"` (unsplit, pad runs `*` and `**`) yields the single
string candidate. -/
theorem padding_early_return_single_string_candidate_witness :
    analyze_number_format (fun _ => none) (fun _ _ => false) "*5**" =
      .ok [(as_string_spec "*" "**" "" "" 0).as_tuple] :=
  padding_early_return_single_string_candidate (fun _ => none) (fun _ _ => false)
    "*5**" "5" "*" "**" "*" (by decide) (by decide) (by decide) (by decide) (by decide)

/-- C2 counterexample: on `" 12:30  "`, with the collaborator detecting
`%H:%M` on the full sample, both the datetime path and the numeric path
produce candidates and the sample contains the separator `:`, so the claim
requires the datetime candidate to be listed first — but the padding
early-return fires and the output is a single string candidate with no
datetime entry at all. -/
theorem merge_order_violated_by_padding_early_return :
    detect_datetime_format (fun t => if t = " 12:30  " then some "%H:%M" else none)
      (fun _ _ => false) " 12:30  " = some "%H:%M" ∧
    has_datetime_structure " 12:30  " = true ∧
    is_single_numeric_datetime_format "%H:%M" = false ∧
    numericResults " 12:30  " = .ok (.inl [("str", "f\" \x7bvariable\x7d  \"")]) ∧
    analyze_number_format (fun t => if t = " 12:30  " then some "%H:%M" else none)
      (fun _ _ => false) " 12:30  " = .ok [("str", "f\" \x7bvariable\x7d  \"")] ∧
    (("datetime" : String), ("f\"\x7bvariable:%H:%M\x7d\"" : String)) ∉
      [(("str" : String), ("f\" \x7bvariable\x7d  \"" : String))] := by
  exact ⟨by decide, by decide, by decide, by decide, by decide, by decide⟩

/-- C2 (amended): whenever the datetime pass detects a format and the numeric
pass reaches the merge step (i.e. the padding early-return does not fire) with
a nonempty candidate list, the merge order is: numeric candidates first and
the datetime candidate last when the format is a single numeric directive;
otherwise datetime first when the sample contains a datetime separator;
otherwise numeric first, datetime last. -/
theorem merge_order_policy_outside_padding_early_return
    (detectFormat : String → Option String) (strptimeOk : String → String → Bool)
    (s dtPre dtSuf f : String) (numres : List (String × String))
    (hdt : datetimeDetectionPass detectFormat strptimeOk s = (dtPre, dtSuf, some f))
    (hnum : numericResults s = .ok (.inr numres)) (_hne : numres ≠ []) :
    analyze_number_format detectFormat strptimeOk s =
      .ok (let dtres :=
            [FormatSpec.as_tuple
              { value_type := "datetime", datetime_format := f, pfx := dtPre, sfx := dtSuf }]
           if is_single_numeric_datetime_format f = true then numres ++ dtres
           else if has_datetime_structure s = true then dtres ++ numres
           else numres ++ dtres) := by
  simp only [analyze_number_format, hdt, hnum]
  by_cases hs : is_single_numeric_datetime_format f = true
  · simp [hs]
  · by_cases hh : has_datetime_structure s = true
    · simp [hs, hh]
    · simp [hs, hh]

/-- C2 witness: `"12:30"` with the collaborator detecting `%H:%M`: separator
present, not a single numeric directive, so the datetime candidate leads. -/
theorem merge_order_policy_witness :
    analyze_number_format (fun t => if t = "12:30" then some "%H:%M" else none)
      (fun _ _ => false) "12:30" =
      .ok [("datetime", "f\"\x7bvariable:%H:%M\x7d\""),
           ("float", "f\"\x7bvariable:.0f\x7d:30\""),
           ("str", "f\"\x7bvariable\x7d:30\"")] := by
  have h := merge_order_policy_outside_padding_early_return
    (fun t => if t = "12:30" then some "%H:%M" else none) (fun _ _ => false)
    "12:30" "" "" "%H:%M"
    [("float", "f\"\x7bvariable:.0f\x7d:30\""), ("str", "f\"\x7bvariable\x7d:30\"")]
    (by decide) (by decide) (by decide)
  exact h

/-- C7 counterexample: with the collaborator detecting `%Y-%m-%d` for
`"2024-01-15"`, `analyze_number_format` returns three candidates (datetime,
then a float candidate for the leading year with the `-01-15` suffix, then a
string fallback), not the single candidate the claim states. -/
theorem iso_date_sample_three_candidates :
    analyze_number_format (fun t => if t = "2024-01-15" then some "%Y-%m-%d" else none)
      (fun _ _ => false) "2024-01-15" =
      .ok [("datetime", "f\"\x7bvariable:%Y-%m-%d\x7d\""),
           ("float", "f\"\x7bvariable:.0f\x7d-01-15\""),
           ("str", "f\"\x7bvariable\x7d-01-15\"")] ∧
    ([("datetime", "f\"\x7bvariable:%Y-%m-%d\x7d\""),
      ("float", "f\"\x7bvariable:.0f\x7d-01-15\""),
      ("str", "f\"\x7bvariable\x7d-01-15\"")] :
        List (String × String)).length ≠ 1 := by
  exact ⟨by decide, by decide⟩

/-- C7 (amended): for any collaborator that detects `%Y-%m-%d` on
`"2024-01-15"`, the analysis returns exactly three candidates, headed by the
datetime candidate carrying the pattern `%Y-%m-%d`, followed by a float
candidate and the string fallback for the split `("", "2024", "-01-15")`. -/
theorem iso_date_sample_candidates (detectFormat : String → Option String)
    (strptimeOk : String → String → Bool)
    (h : detectFormat "2024-01-15" = some "%Y-%m-%d") :
    analyze_number_format detectFormat strptimeOk "2024-01-15" =
      .ok [("datetime", "f\"\x7bvariable:%Y-%m-%d\x7d\""),
           ("float", "f\"\x7bvariable:.0f\x7d-01-15\""),
           ("str", "f\"\x7bvariable\x7d-01-15\"")] := by
  have hdet : detect_datetime_format detectFormat strptimeOk "2024-01-15" =
      some "%Y-%m-%d" := by
    unfold detect_datetime_format
    rw [h]
    rfl
  have hdd : datetimeDetectionPass detectFormat strptimeOk "2024-01-15" =
      ("", "", some "%Y-%m-%d") := by
    unfold datetimeDetectionPass
    rw [hdet]
  have hnum : numericResults "2024-01-15" =
      .ok (.inr [("float", "f\"\x7bvariable:.0f\x7d-01-15\""),
                 ("str", "f\"\x7bvariable\x7d-01-15\"")]) := by decide
  simp only [analyze_number_format, hdd, hnum]
  decide

/-- C7 witness for the amended theorem's hypothesis. -/
theorem iso_date_sample_candidates_witness :
    analyze_number_format (fun t => if t = "2024-01-15" then some "%Y-%m-%d" else none)
      (fun _ _ => true) "2024-01-15" =
      .ok [("datetime", "f\"\x7bvariable:%Y-%m-%d\x7d\""),
           ("float", "f\"\x7bvariable:.0f\x7d-01-15\""),
           ("str", "f\"\x7bvariable\x7d-01-15\"")] :=
  iso_date_sample_candidates (fun t => if t = "2024-01-15" then some "%Y-%m-%d" else none)
    (fun _ _ => true) (by decide)

/-- C6: in the grouped/plain-decimal branch of `parse_number_to_spec` (all
earlier shapes failing, the de-grouped core matching the plain number shape):
an integer candidate is included iff the detected precision is 0 and some
decoration signal is present (nonempty align, comma or underscore grouping, an
explicit leading `+`, or a fill that is nonempty after stripping whitespace —
the code's reading of "non-space fill", which agrees with it on every fill
character the program produces); a float candidate at the detected precision
is always included; and when both exist the float candidate comes first iff
grouping is present, otherwise the integer candidate comes first. -/
theorem grouped_plain_decimal_candidate_policy
    (s pfx sfx align fill : String) (width : Nat)
    (h1 : reFullmatch HEX_body s = false)
    (h2 : reFullmatch BAREHEX_body s = false)
    (h3 : reFullmatch PERCENT_body s = false)
    (h4 : reFullmatch ZEROPAD_body (removePre s "+") = false)
    (h5 : reFullmatch NUMBER_body (removeAll (removeAll s ',') '_') = true) :
    parse_number_to_spec s pfx sfx align fill width =
      .ok (if count_decimals (removeAll (removeAll s ',') '_') = 0 ∧
              (reFullmatch THOUSANDS_body s = true ∨ reFullmatch UNDERSCORE_body s = true) then
             [{ align := align, fill := fill, width := width,
                comma := reFullmatch THOUSANDS_body s,
                underscore := reFullmatch UNDERSCORE_body s,
                decimals := some (count_decimals (removeAll (removeAll s ',') '_')),
                type_char := "f", sign := if startsWithStr s "+" = true then "+" else "",
                pfx := pfx, sfx := sfx, value_type := "float" },
              { align := align, fill := fill, width := width,
                comma := reFullmatch THOUSANDS_body s,
                underscore := reFullmatch UNDERSCORE_body s,
                type_char := "d", sign := if startsWithStr s "+" = true then "+" else "",
                pfx := pfx, sfx := sfx, value_type := "int" }]
           else if count_decimals (removeAll (removeAll s ',') '_') = 0 ∧
              (align ≠ "" ∨ reFullmatch THOUSANDS_body s = true
                ∨ reFullmatch UNDERSCORE_body s = true
                ∨ (if startsWithStr s "+" = true then "+" else "") ≠ ""
                ∨ pyStrip fill ≠ "") then
             [{ align := align, fill := fill, width := width,
                comma := reFullmatch THOUSANDS_body s,
                underscore := reFullmatch UNDERSCORE_body s,
                type_char := "d", sign := if startsWithStr s "+" = true then "+" else "",
                pfx := pfx, sfx := sfx, value_type := "int" },
              { align := align, fill := fill, width := width,
                comma := reFullmatch THOUSANDS_body s,
                underscore := reFullmatch UNDERSCORE_body s,
                decimals := some (count_decimals (removeAll (removeAll s ',') '_')),
                type_char := "f", sign := if startsWithStr s "+" = true then "+" else "",
                pfx := pfx, sfx := sfx, value_type := "float" }]
           else
             [{ align := align, fill := fill, width := width,
                comma := reFullmatch THOUSANDS_body s,
                underscore := reFullmatch UNDERSCORE_body s,
                decimals := some (count_decimals (removeAll (removeAll s ',') '_')),
                type_char := "f", sign := if startsWithStr s "+" = true then "+" else "",
                pfx := pfx, sfx := sfx, value_type := "float" }]) := by
  by_cases hdec : count_decimals (removeAll (removeAll s ',') '_') = 0 <;>
    by_cases hcm : reFullmatch THOUSANDS_body s = true <;>
      by_cases hun : reFullmatch UNDERSCORE_body s = true <;>
        by_cases hal : align = "" <;>
          by_cases hpl : startsWithStr s "+" = true <;>
            by_cases hfl : pyStrip fill = "" <;>
              simp +decide [parse_number_to_spec, h1, h2, h3, h4, h5, hdec, hcm, hun, hal,
                hpl, hfl]

/-- C6 witness: `"1,234"` — grouped, precision 0, so the float candidate
precedes the integer candidate. -/
theorem grouped_plain_decimal_candidate_policy_witness :
    parse_number_to_spec "1,234" "" "" "" "" 0 =
      .ok [{ comma := true, decimals := some 0, type_char := "f",
             value_type := "float" },
           { comma := true, type_char := "d", value_type := "int" }] :=
  grouped_plain_decimal_candidate_policy "1,234" "" "" "" "" 0
    (by decide) (by decide) (by decide) (by decide) (by decide)

/-- The first component of `as_tuple` is the value kind. -/
theorem as_tuple_fst (fs : FormatSpec) : (FormatSpec.as_tuple fs).1 = fs.value_type := rfl

/-- Kinds over a mapped candidate list. -/
theorem map_fst_as_tuple (l : List FormatSpec) :
    (l.map FormatSpec.as_tuple).map Prod.fst = l.map FormatSpec.value_type := by
  rw [List.map_map]
  rfl

/-- Every successful `parse_number_to_spec` result has one of five kind lists:
each branch returns at most one integer and at most one float candidate, never
a string or datetime one. -/
theorem parse_number_to_spec_kind_list (s pfx sfx align fill : String) (width : Nat)
    (l : List FormatSpec) (h : parse_number_to_spec s pfx sfx align fill width = .ok l) :
    l.map FormatSpec.value_type ∈
      ([[], ["int"], ["float"], ["int", "float"], ["float", "int"]] : List (List String)) := by
  unfold parse_number_to_spec at h
  dsimp only at h
  split_ifs at h <;>
    first
      | exact Except.noConfusion h
      | (injection h with h; subst h; simp)

/-- Kinds after appending one spec. -/
theorem kinds_append (specs : List FormatSpec) (x : FormatSpec) :
    ((specs ++ [x]).map FormatSpec.as_tuple).map Prod.fst =
      specs.map FormatSpec.value_type ++ [x.value_type] := by
  rw [map_fst_as_tuple, List.map_append]
  rfl

/-- The string fallback spec has kind `"str"`. -/
theorem as_string_spec_vt (pfx sfx align fill : String) (width : Nat) :
    (as_string_spec pfx sfx align fill width).value_type = "str" := rfl

/-- Every successful `numericResults` outcome is either the early-return, a
single string-kind candidate, or a merged list whose kinds are pairwise
distinct and never `"datetime"`. -/
theorem numericResults_kind_facts (sample : String)
    (out : List (String × String) ⊕ List (String × String))
    (h : numericResults sample = .ok out) :
    (∃ l, out = .inl l ∧ l.map Prod.fst = ["str"]) ∨
    (∃ l, out = .inr l ∧ (l.map Prod.fst).Nodup ∧ "datetime" ∉ l.map Prod.fst) := by
  unfold numericResults at h
  by_cases hc1 : (split_numeric_literals sample).pfx ≠ "" ∨ (split_numeric_literals sample).sfx ≠ ""
  · rw [if_pos hc1] at h
    rcases hp : parse_number_to_spec (split_numeric_literals sample).num
        (split_numeric_literals sample).pfx (split_numeric_literals sample).sfx "" "" 0 with e | specs
    · rw [hp] at h
      exact Except.noConfusion h
    · rw [hp] at h
      have hout := Except.ok.inj h
      refine Or.inr ⟨_, hout.symm, ?_⟩
      rw [kinds_append, as_string_spec_vt]
      have hK := parse_number_to_spec_kind_list _ _ _ _ _ _ _ hp
      simp only [List.mem_cons, List.not_mem_nil, or_false, List.mem_singleton] at hK
      rcases hK with hK | hK | hK | hK | hK <;> rw [hK] <;> exact ⟨by decide, by decide⟩
  · rw [if_neg hc1] at h
    rcases hdp : detect_padding sample with ⟨core, lp, rp, fc⟩
    rw [hdp] at h
    dsimp only at h
    by_cases hc2 : lp ≠ "" ∧ rp ≠ "" ∧ lp.data.length ≠ rp.data.length
    · rw [if_pos hc2] at h
      have hout := Except.ok.inj h
      exact Or.inl ⟨_, hout.symm, rfl⟩
    · rw [if_neg hc2] at h
      rcases hp : parse_number_to_spec core "" ""
          (if lp ≠ "" ∧ rp ≠ "" then "^" else if lp ≠ "" then ">" else if rp ≠ "" then "<" else "")
          fc (if lp ≠ "" ∨ rp ≠ "" then sample.data.length else 0) with e | specs
      · rw [hp] at h
        exact Except.noConfusion h
      · rw [hp] at h
        dsimp only at h
        have hK := parse_number_to_spec_kind_list _ _ _ _ _ _ _ hp
        simp only [List.mem_cons, List.not_mem_nil, or_false, List.mem_singleton] at hK
        by_cases hc3 : (lp ≠ "" ∨ rp ≠ "") ∧
            ((if lp ≠ "" ∧ rp ≠ "" then "^" else if lp ≠ "" then ">" else if rp ≠ "" then "<"
              else "") ≠ "" ∨ fc ≠ " ")
        · rw [if_pos hc3] at h
          have hout := Except.ok.inj h
          refine Or.inr ⟨_, hout.symm, ?_⟩
          rw [kinds_append, as_string_spec_vt]
          rcases hK with hK | hK | hK | hK | hK <;> rw [hK] <;> exact ⟨by decide, by decide⟩
        · rw [if_neg hc3] at h
          have hout := Except.ok.inj h
          refine Or.inr ⟨_, hout.symm, ?_⟩
          rw [map_fst_as_tuple]
          rcases hK with hK | hK | hK | hK | hK <;> rw [hK] <;> exact ⟨by decide, by decide⟩

/-- Appending or prepending a datetime-kind entry to a list of candidates with
distinct non-datetime kinds keeps the entries pairwise distinct. -/
theorem nodup_with_datetime_entry (l1 : List (String × String)) (d : String × String)
    (hd : d.1 = "datetime") (hnd : (l1.map Prod.fst).Nodup)
    (hndt : "datetime" ∉ l1.map Prod.fst) :
    (l1 ++ [d]).Nodup ∧ ([d] ++ l1).Nodup := by
  have hdisj : ∀ x, x ∈ l1.map Prod.fst → x ∈ [d].map Prod.fst → False := by
    intro x hx hxd
    simp only [List.map_cons, List.map_nil, List.mem_singleton, hd] at hxd
    rw [hxd] at hx
    exact hndt hx
  constructor
  · apply List.Nodup.of_map Prod.fst
    rw [List.map_append, List.nodup_append]
    exact ⟨hnd, by simp, fun x hx hxd => hdisj x hx hxd⟩
  · apply List.Nodup.of_map Prod.fst
    rw [List.map_append, List.nodup_append]
    exact ⟨by simp, hnd, fun x hxd hx => hdisj x hx hxd⟩

/-- C8: no two entries of a list returned by `analyze_number_format` are equal
as (value kind, rendered text) pairs: the datetime path contributes at most
one datetime-kind entry, and the numeric path at most one entry each of the
int, float and str kinds, so the kinds — and hence the pairs — are pairwise
distinct. -/
theorem analyze_number_format_result_nodup
    (detectFormat : String → Option String) (strptimeOk : String → String → Bool)
    (s : String) (l : List (String × String))
    (h : analyze_number_format detectFormat strptimeOk s = .ok l) : l.Nodup := by
  rcases hdd : datetimeDetectionPass detectFormat strptimeOk s with ⟨dtPre, dtSuf, dtFmt⟩
  unfold analyze_number_format at h
  rw [hdd] at h
  dsimp only at h
  rcases hn : numericResults s with e | out
  · rw [hn] at h
    exact Except.noConfusion h
  · rw [hn] at h
    rcases numericResults_kind_facts s out hn with ⟨l1, hout, hmap⟩ | ⟨l1, hout, hnd, hndt⟩
    · subst hout
      dsimp only at h
      have hl := Except.ok.inj h
      subst hl
      cases l1 with
      | nil => exact List.nodup_nil
      | cons a t =>
        cases t with
        | nil => exact List.nodup_singleton a
        | cons b t2 => simp at hmap
    · subst hout
      dsimp only at h
      cases dtFmt with
      | none =>
        rw [if_neg (by simp), if_neg (by simp)] at h
        have hl := Except.ok.inj h
        subst hl
        exact List.Nodup.of_map Prod.fst hnd
      | some f =>
        dsimp only at h
        by_cases hs : is_single_numeric_datetime_format f = true
        · rw [if_neg (by simp [hs]), if_pos ⟨by simp, hs⟩] at h
          have hl := Except.ok.inj h
          subst hl
          exact (nodup_with_datetime_entry l1 _ rfl hnd hndt).1
        · rw [if_pos ⟨by simp, hs⟩] at h
          by_cases hh : has_datetime_structure s = true
          · rw [if_pos hh] at h
            have hl := Except.ok.inj h
            subst hl
            exact (nodup_with_datetime_entry l1 _ rfl hnd hndt).2
          · rw [if_neg hh] at h
            have hl := Except.ok.inj h
            subst hl
            exact (nodup_with_datetime_entry l1 _ rfl hnd hndt).1

/-- C8 witness: the three candidates for `"***7***"` are pairwise distinct. -/
theorem analyze_number_format_result_nodup_witness :
    ([("int", "f\"\x7bvariable:*^7d\x7d\""), ("float", "f\"\x7bvariable:*^7.0f\x7d\""),
      ("str", "f\"\x7bvariable:*^7\x7d\"")] : List (String × String)).Nodup :=
  analyze_number_format_result_nodup (fun _ => none) (fun _ _ => false) "***7***" _
    (by decide)
